import Mathlib

/-!
# Verification of the Pulse-of-Korea population core

A shallow embedding of `src/population_manager.py` (the Estimator and the
Broadcaster) together with proofs of the specification claims.

Modelling conventions:
* Python `float` wall-clock timestamps and rates are modelled as exact
  rationals (`ℚ`); every integer output of the program goes through Python's
  `int(...)` conversion, which truncates toward zero, modelled by `truncQ`.
* `datetime(2024, 1, 1, tzinfo=timezone.utc).timestamp()` is the constant
  `1704067200` (19723 days of 86400 seconds since the Unix epoch).
* Korea Standard Time is the fixed offset UTC+9 with no daylight saving, so
  on POSIX timestamps the seconds elapsed since the current KST midnight are
  `(t + 32400) - 86400 * ⌊(t + 32400) / 86400⌋`.
-/

namespace PulseOfKorea

/-- Python `int(x)`: truncation toward zero of a rational number. -/
def truncQ (q : ℚ) : ℤ :=
  if q < 0 then ⌈q⌉ else ⌊q⌋

/-- `CountryData` dataclass from `population_manager.py`: official demographic
data for one country. -/
structure CountryData where
  name : String
  base_population : ℤ
  base_year : ℤ
  base_date : String
  annual_births : ℤ
  annual_deaths : ℤ
  annual_growth_rate : ℚ
  fertility_rate : ℚ
  life_expectancy : ℚ
  birth_rate : ℚ
  death_rate : ℚ
  data_source : String
  deriving Repr, DecidableEq

/-- `CountryData.calculate_daily_increment`. -/
def CountryData.calculate_daily_increment (d : CountryData) : ℚ :=
  (d.base_population * (d.annual_growth_rate / 100)) / 365.25

/-- `CountryData.calculate_birth_death_rates_per_second`. -/
def CountryData.calculate_birth_death_rates_per_second (d : CountryData) : ℚ × ℚ :=
  (d.annual_births / (365.25 * 24 * 60 * 60), d.annual_deaths / (365.25 * 24 * 60 * 60))

/-- `PopulationState` dataclass: one snapshot produced by
`calculate_current_population` (the `recent_events` list is always the empty
compatibility list in hybrid mode and is omitted). -/
structure PopulationState where
  timestamp : ℚ
  south_korea_population : ℤ
  north_korea_population : ℤ
  total_population : ℤ
  sk_births_today : ℤ
  sk_deaths_today : ℤ
  nk_births_today : ℤ
  nk_deaths_today : ℤ
  seconds_since_midnight_kst : ℤ
  deriving Repr, DecidableEq

/-- `datetime(2024, 1, 1, tzinfo=timezone.utc).timestamp()`. -/
def epochTimestamp : ℚ := 1704067200

/-- `PopulationManager.get_seconds_since_midnight_kst`, as a function of the
current POSIX timestamp `now`: `int((now_kst - midnight_kst).total_seconds())`
where KST is the fixed offset UTC+9. -/
def get_seconds_since_midnight_kst (now : ℚ) : ℤ :=
  truncQ ((now + 32400) - 86400 * ⌊(now + 32400) / 86400⌋)

/-- The population expression of `calculate_current_population`, lines
226-237, applied to one country:
`int(base_population + (annual_growth_rate/100) * base_population *
((now - base_timestamp)/86400 / 365.25))`. -/
def estimatePopulation (stats : CountryData) (now : ℚ) : ℤ :=
  let time_elapsed_days := (now - epochTimestamp) / (24 * 60 * 60)
  truncQ ((stats.base_population : ℚ) +
    (stats.annual_growth_rate / 100) * (stats.base_population : ℚ) *
      (time_elapsed_days / 365.25))

/-- The daily-counter expression of `calculate_current_population`, lines
243-247: `int(annual_count * day_fraction / 365.25)` with
`day_fraction = seconds_today / 86400`. -/
def countToday (annual_count : ℤ) (seconds_today : ℤ) : ℤ :=
  truncQ ((annual_count : ℚ) * ((seconds_today : ℚ) / (24 * 60 * 60)) / 365.25)

/-- `PopulationManager.calculate_current_population`, as a function of the two
country records and the wall-clock timestamp `now` (= `time.time()`). -/
def calculate_current_population (sk nk : CountryData) (now : ℚ) : PopulationState :=
  let sk_population := estimatePopulation sk now
  let nk_population := estimatePopulation nk now
  let seconds_today := get_seconds_since_midnight_kst now
  { timestamp := now
    south_korea_population := sk_population
    north_korea_population := nk_population
    total_population := sk_population + nk_population
    sk_births_today := countToday sk.annual_births seconds_today
    sk_deaths_today := countToday sk.annual_deaths seconds_today
    nk_births_today := countToday nk.annual_births seconds_today
    nk_deaths_today := countToday nk.annual_deaths seconds_today
    seconds_since_midnight_kst := seconds_today }

/-- The South Korea record built in `PopulationManager.__init__`. -/
def southKoreaInit : CountryData where
  name := "South Korea"
  base_population := 51628117
  base_year := 2024
  base_date := "2024-01-01T00:00:00Z"
  annual_births := 216215
  annual_deaths := 325162
  annual_growth_rate := -0.21
  fertility_rate := 0.748
  life_expectancy := 75.5
  birth_rate := 4.2
  death_rate := 6.3
  data_source := "KOSIS (Korean Statistical Information Service)"

/-- The North Korea record built in `PopulationManager.__init__`
(`annual_births = int(25971909 * 13.2 / 1000)`, similarly deaths). -/
def northKoreaInit : CountryData where
  name := "North Korea"
  base_population := 25971909
  base_year := 2024
  base_date := "2024-01-01T00:00:00Z"
  annual_births := truncQ (25971909 * 13.2 / 1000)
  annual_deaths := truncQ (25971909 * 9.2 / 1000)
  annual_growth_rate := 0.4
  fertility_rate := 1.9
  life_expectancy := 72.3
  birth_rate := 13.2
  death_rate := 9.2
  data_source := "CIA World Factbook 2024"

/-- The outbound tick message assembled in `broadcast_update`, lines 288-310
(the display-only `korea_time` string is the `strftime` rendering of the same
clock and is omitted). -/
structure TickMessage where
  timestamp : ℚ
  south_korea_population : ℤ
  north_korea_population : ℤ
  total_population : ℤ
  sk_births_today : ℤ
  sk_deaths_today : ℤ
  nk_births_today : ℤ
  nk_deaths_today : ℤ
  seconds_since_midnight : ℤ
  is_resync : Bool
  sk_births_per_sec : ℚ
  sk_deaths_per_sec : ℚ
  nk_births_per_sec : ℚ
  nk_deaths_per_sec : ℚ
  any_birth : Bool
  any_death : Bool
  deriving Repr, DecidableEq

/-- The `message` dictionary built by `broadcast_update` from the snapshot,
the manager's per-second rates, and the tick's `is_resync` flag. -/
def build_message (state : PopulationState)
    (skRates nkRates : ℚ × ℚ) (is_resync : Bool) : TickMessage where
  timestamp := state.timestamp
  south_korea_population := state.south_korea_population
  north_korea_population := state.north_korea_population
  total_population := state.total_population
  sk_births_today := state.sk_births_today
  sk_deaths_today := state.sk_deaths_today
  nk_births_today := state.nk_births_today
  nk_deaths_today := state.nk_deaths_today
  seconds_since_midnight := state.seconds_since_midnight_kst
  is_resync := is_resync
  sk_births_per_sec := skRates.1
  sk_deaths_per_sec := skRates.2
  nk_births_per_sec := nkRates.1
  nk_deaths_per_sec := nkRates.2
  any_birth := false
  any_death := false

/-! ### Helper lemmas about `truncQ` -/

theorem truncQ_of_nonneg {q : ℚ} (h : 0 ≤ q) : truncQ q = ⌊q⌋ := by
  rw [truncQ, if_neg (not_lt.mpr h)]

theorem truncQ_eq_of_nonneg {q : ℚ} {n : ℤ} (h0 : 0 ≤ q) (h1 : (n : ℚ) ≤ q)
    (h2 : q < n + 1) : truncQ q = n := by
  rw [truncQ_of_nonneg h0]
  exact Int.floor_eq_iff.mpr ⟨h1, h2⟩

theorem truncQ_mono {x y : ℚ} (h : x ≤ y) : truncQ x ≤ truncQ y := by
  unfold truncQ
  by_cases hx : x < 0
  · by_cases hy : y < 0
    · simp only [if_pos hx, if_pos hy]
      exact Int.ceil_mono h
    · simp only [if_pos hx, if_neg hy]
      calc ⌈x⌉ ≤ 0 := Int.ceil_le.mpr (by exact_mod_cast hx.le)
        _ ≤ ⌊y⌋ := Int.floor_nonneg.mpr (not_lt.mp hy)
  · have hy : ¬y < 0 := fun hy => hx (lt_of_le_of_lt h hy)
    simp only [if_neg hx, if_neg hy]
    exact Int.floor_mono h

theorem truncQ_lt_of_lt {q : ℚ} {n : ℤ} (hn : 0 < n) (h : q < n) : truncQ q < n := by
  unfold truncQ
  by_cases hq : q < 0
  · rw [if_pos hq]
    calc ⌈q⌉ ≤ 0 := Int.ceil_le.mpr (by exact_mod_cast hq.le)
      _ < n := hn
  · rw [if_neg hq]
    exact Int.floor_lt.mpr h

/-! ### C1: the population formula and its epoch anchoring -/

/-- A copy of `stats` whose mutable display fields `base_date` and
`base_year` are replaced. -/
def setDisplayFields (stats : CountryData) (d : String) (y : ℤ) : CountryData :=
  { stats with base_date := d, base_year := y }

/-- C1. For every `CountryData` and every time `now`, the population computed
by `calculate_current_population` (for both country slots) equals
`base_population + (annual_growth_rate/100) * base_population *
(elapsed_days / 365.25)` truncated to an integer, with
`elapsed_days = (now - 2024-01-01T00:00:00Z) / 86400`; and the result is
unchanged under any replacement of the mutable `base_date` / `base_year`
fields, i.e. it anchors only to the fixed epoch. -/
theorem C1_population_formula_anchored_to_epoch (sk nk stats : CountryData)
    (now : ℚ) (d : String) (y : ℤ) :
    (calculate_current_population sk nk now).south_korea_population
        = estimatePopulation sk now
      ∧ (calculate_current_population sk nk now).north_korea_population
        = estimatePopulation nk now
      ∧ estimatePopulation stats now
        = truncQ ((stats.base_population : ℚ) +
            (stats.annual_growth_rate / 100) * (stats.base_population : ℚ) *
              (((now - epochTimestamp) / 86400) / 365.25))
      ∧ estimatePopulation (setDisplayFields stats d y) now
        = estimatePopulation stats now := by
  refine ⟨rfl, rfl, ?_, ?_⟩
  · unfold estimatePopulation
    norm_num
  · unfold estimatePopulation setDisplayFields
    norm_num

/-! ### C3: the concrete South-Korea case at `now = epoch + 365.25 days`

`epoch + 365.25 days = 1704067200 + 31557600 = 1735624800`.  The growth
increment there is `(-0.21/100) * 51628117 * 1 = -108419.0457`, so the
computation yields `int(51628117 - 108419.0457) = 51519697`, not the value
`51520712` stated in the claim (whose own parenthetical arithmetic
`51628117 - 108405.297` is also inconsistent with it). -/

/-- C3 (counterexample). At `now = epoch + 365.25 days` with the
initialisation constants, the computed South-Korea population is not
`51520712` as the claim states. -/
theorem C3_counterexample_population_not_51520712 :
    (calculate_current_population southKoreaInit northKoreaInit 1735624800).south_korea_population
      ≠ 51520712 := by
  have h : (calculate_current_population southKoreaInit northKoreaInit
      1735624800).south_korea_population = 51519697 := by
    show estimatePopulation southKoreaInit 1735624800 = 51519697
    unfold estimatePopulation southKoreaInit epochTimestamp
    apply truncQ_eq_of_nonneg <;> norm_num
  rw [h]
  decide

/-- C3 (amended). With South Korea's constants `base_population = 51628117`
and `annual_growth_rate = -0.21`, evaluating the population calculation at
`now = epoch + exactly 365.25 days` yields population `51519697`, the integer
truncation of `51628117 + (-0.21/100) * 51628117 * 1 = 51519697.9543`. -/
theorem C3_concrete_case_at_one_mean_year :
    (calculate_current_population southKoreaInit northKoreaInit 1735624800).south_korea_population
        = 51519697
      ∧ truncQ ((51628117 : ℚ) + (-0.21 / 100) * 51628117 * 1) = 51519697 := by
  constructor
  · show estimatePopulation southKoreaInit 1735624800 = 51519697
    unfold estimatePopulation southKoreaInit epochTimestamp
    apply truncQ_eq_of_nonneg <;> norm_num
  · apply truncQ_eq_of_nonneg <;> norm_num

/-! ### C9: the total field is the sum of the two country fields -/

/-- C9. In every snapshot returned by `calculate_current_population`, and in
every tick message built from such a snapshot, the `total_population` field is
the sum of the `south_korea_population` and `north_korea_population` fields of
that same snapshot/message. -/
theorem C9_total_is_sum (sk nk : CountryData) (now : ℚ)
    (skRates nkRates : ℚ × ℚ) (b : Bool) :
    (calculate_current_population sk nk now).total_population
        = (calculate_current_population sk nk now).south_korea_population
          + (calculate_current_population sk nk now).north_korea_population
      ∧ (build_message (calculate_current_population sk nk now) skRates nkRates b).total_population
        = (build_message (calculate_current_population sk nk now) skRates nkRates b).south_korea_population
          + (build_message (calculate_current_population sk nk now) skRates nkRates b).north_korea_population :=
  ⟨rfl, rfl⟩

/-! ### C2: the daily birth/death counters -/

theorem get_seconds_since_midnight_kst_nonneg (now : ℚ) :
    0 ≤ get_seconds_since_midnight_kst now := by
  unfold get_seconds_since_midnight_kst
  have hfl : (86400 : ℚ) * ⌊(now + 32400) / 86400⌋ ≤ now + 32400 := by
    have h := Int.floor_le ((now + 32400) / 86400)
    calc (86400 : ℚ) * ⌊(now + 32400) / 86400⌋
        ≤ 86400 * ((now + 32400) / 86400) := by
          exact mul_le_mul_of_nonneg_left h (by norm_num)
      _ = now + 32400 := by field_simp
  rw [truncQ_of_nonneg (by linarith)]
  exact Int.floor_nonneg.mpr (by linarith)

theorem countToday_eq_floor {a s : ℤ} (ha : 0 ≤ a) (hs : 0 ≤ s) :
    countToday a s = ⌊(a : ℚ) * ((s : ℚ) / 86400) / 365.25⌋ := by
  unfold countToday
  have hq : (0 : ℚ) ≤ (a : ℚ) * ((s : ℚ) / (24 * 60 * 60)) / 365.25 := by
    apply div_nonneg _ (by norm_num)
    exact mul_nonneg (by exact_mod_cast ha)
      (div_nonneg (by exact_mod_cast hs) (by norm_num))
  rw [truncQ_of_nonneg hq]
  norm_num

/-- C2. For every pair of `CountryData` records with nonnegative annual birth
and death counts (true of all real demographic data) and every time `now`, the
`*_births_today` field returned by `calculate_current_population` equals
`floor(annual_births * day_fraction / 365.25)` where
`day_fraction = seconds_since_local_midnight / 86400` in the fixed UTC+9
timezone, and symmetrically `*_deaths_today` equals
`floor(annual_deaths * day_fraction / 365.25)`. -/
theorem C2_daily_counters_floor_formula (sk nk : CountryData) (now : ℚ)
    (hskb : 0 ≤ sk.annual_births) (hskd : 0 ≤ sk.annual_deaths)
    (hnkb : 0 ≤ nk.annual_births) (hnkd : 0 ≤ nk.annual_deaths) :
    (calculate_current_population sk nk now).sk_births_today
        = ⌊(sk.annual_births : ℚ) * ((get_seconds_since_midnight_kst now : ℚ) / 86400) / 365.25⌋
      ∧ (calculate_current_population sk nk now).sk_deaths_today
        = ⌊(sk.annual_deaths : ℚ) * ((get_seconds_since_midnight_kst now : ℚ) / 86400) / 365.25⌋
      ∧ (calculate_current_population sk nk now).nk_births_today
        = ⌊(nk.annual_births : ℚ) * ((get_seconds_since_midnight_kst now : ℚ) / 86400) / 365.25⌋
      ∧ (calculate_current_population sk nk now).nk_deaths_today
        = ⌊(nk.annual_deaths : ℚ) * ((get_seconds_since_midnight_kst now : ℚ) / 86400) / 365.25⌋ := by
  have hs := get_seconds_since_midnight_kst_nonneg now
  exact ⟨countToday_eq_floor hskb hs, countToday_eq_floor hskd hs,
    countToday_eq_floor hnkb hs, countToday_eq_floor hnkd hs⟩

/-- C2 witness: the South-Korea initialisation data one hour after the epoch
(the epoch is 09:00 KST, so this instant is 36000 seconds into the local
day). -/
theorem C2_daily_counters_floor_formula_witness :
    0 ≤ southKoreaInit.annual_births ∧ 0 ≤ southKoreaInit.annual_deaths
      ∧ (calculate_current_population southKoreaInit northKoreaInit (epochTimestamp + 3600)).sk_births_today
        = ⌊(southKoreaInit.annual_births : ℚ) *
            ((get_seconds_since_midnight_kst (epochTimestamp + 3600) : ℚ) / 86400) / 365.25⌋ := by
  refine ⟨by norm_num [southKoreaInit], by norm_num [southKoreaInit], ?_⟩
  exact (C2_daily_counters_floor_formula southKoreaInit northKoreaInit
    (epochTimestamp + 3600) (by norm_num [southKoreaInit]) (by norm_num [southKoreaInit])
    (by
      norm_num [northKoreaInit]
      rw [truncQ_of_nonneg (by norm_num)]
      exact Int.floor_nonneg.mpr (by norm_num))
    (by
      norm_num [northKoreaInit]
      rw [truncQ_of_nonneg (by norm_num)]
      exact Int.floor_nonneg.mpr (by norm_num))).1

/-! ### C4: monotonicity of the estimate in `now` -/

/-- C4. Holding `stats` fixed (with the physically meaningful nonnegative
`base_population`), the computed current population is monotonically
nondecreasing in `now` when `annual_growth_rate > 0` and monotonically
nonincreasing in `now` when `annual_growth_rate < 0`. -/
theorem C4_population_monotone_in_now (stats : CountryData) (now₁ now₂ : ℚ)
    (hbase : 0 ≤ stats.base_population) (h : now₁ ≤ now₂) :
    (0 < stats.annual_growth_rate →
        estimatePopulation stats now₁ ≤ estimatePopulation stats now₂)
      ∧ (stats.annual_growth_rate < 0 →
        estimatePopulation stats now₂ ≤ estimatePopulation stats now₁) := by
  have hbase' : (0 : ℚ) ≤ (stats.base_population : ℚ) := by exact_mod_cast hbase
  have hd : ((now₁ - epochTimestamp) / (24 * 60 * 60)) / 365.25
      ≤ ((now₂ - epochTimestamp) / (24 * 60 * 60)) / 365.25 := by
    gcongr
  constructor
  · intro hrate
    apply truncQ_mono
    have hK : (0 : ℚ) ≤ stats.annual_growth_rate / 100 * (stats.base_population : ℚ) :=
      mul_nonneg (div_nonneg hrate.le (by norm_num)) hbase'
    exact add_le_add_left (mul_le_mul_of_nonneg_left hd hK) _
  · intro hrate
    apply truncQ_mono
    have hK : stats.annual_growth_rate / 100 * (stats.base_population : ℚ) ≤ 0 :=
      mul_nonpos_of_nonpos_of_nonneg (div_nonpos_of_nonpos_of_nonneg hrate.le (by norm_num)) hbase'
    exact add_le_add_left (mul_le_mul_of_nonpos_left hd hK) _

/-- C4 witness: both initialisation records at the epoch and one day later
(South Korea shrinks, North Korea grows). -/
theorem C4_population_monotone_in_now_witness :
    (0 ≤ southKoreaInit.base_population ∧ southKoreaInit.annual_growth_rate < 0
        ∧ estimatePopulation southKoreaInit (epochTimestamp + 86400)
          ≤ estimatePopulation southKoreaInit epochTimestamp)
      ∧ (0 ≤ northKoreaInit.base_population ∧ 0 < northKoreaInit.annual_growth_rate
        ∧ estimatePopulation northKoreaInit epochTimestamp
          ≤ estimatePopulation northKoreaInit (epochTimestamp + 86400)) := by
  constructor
  · refine ⟨by norm_num [southKoreaInit], by norm_num [southKoreaInit], ?_⟩
    exact (C4_population_monotone_in_now southKoreaInit epochTimestamp
      (epochTimestamp + 86400) (by norm_num [southKoreaInit]) (by norm_num)).2
      (by norm_num [southKoreaInit])
  · refine ⟨by norm_num [northKoreaInit], by norm_num [northKoreaInit], ?_⟩
    exact (C4_population_monotone_in_now northKoreaInit epochTimestamp
      (epochTimestamp + 86400) (by norm_num [northKoreaInit]) (by norm_num)).1
      (by norm_num [northKoreaInit])

/-! ### C8: times before the epoch

The claim states that any `now` before the epoch produces a population below
`base_population`.  The computation is indeed total there, but the sign of the
deviation follows the sign of the growth rate: with a negative
`annual_growth_rate` (South Korea) a pre-epoch time gives a population ABOVE
the base value. -/

/-- C8 (counterexample). One mean year before the epoch
(`now = 1704067200 - 31557600 = 1672509600`), the South-Korea initialisation
record — whose growth rate is negative — yields a population strictly above
its `base_population`, refuting "below the country's base_population". -/
theorem C8_counterexample_above_base_before_epoch :
    (1672509600 : ℚ) < epochTimestamp
      ∧ southKoreaInit.base_population
        < estimatePopulation southKoreaInit 1672509600 := by
  constructor
  · norm_num [epochTimestamp]
  · have h : estimatePopulation southKoreaInit 1672509600 = 51736536 := by
      unfold estimatePopulation southKoreaInit epochTimestamp
      apply truncQ_eq_of_nonneg <;> norm_num
    rw [h]
    norm_num [southKoreaInit]

/-- C8 (amended). For every time `now` strictly before the fixed epoch
2024-01-01T00:00:00Z the population computation is still well-defined (total,
always equal to its defining truncation formula — no error path exists), and
it returns a population strictly below the country's `base_population`
whenever the growth rate is positive (for a negative growth rate the result
lies above the base instead, as the counterexample shows). -/
theorem C8_before_epoch_total_and_below_base_for_positive_growth
    (stats : CountryData) (now : ℚ) (hnow : now < epochTimestamp) :
    estimatePopulation stats now
        = truncQ ((stats.base_population : ℚ) +
            (stats.annual_growth_rate / 100) * (stats.base_population : ℚ) *
              (((now - epochTimestamp) / 86400) / 365.25))
      ∧ (0 < stats.annual_growth_rate → 0 < stats.base_population →
          estimatePopulation stats now < stats.base_population) := by
  constructor
  · unfold estimatePopulation
    norm_num
  · intro hrate hbase
    have hbase' : (0 : ℚ) < (stats.base_population : ℚ) := by exact_mod_cast hbase
    have hd : ((now - epochTimestamp) / (24 * 60 * 60)) / 365.25 < 0 := by
      apply div_neg_of_neg_of_pos _ (by norm_num)
      apply div_neg_of_neg_of_pos (by linarith) (by norm_num)
    have hK : (0 : ℚ) < stats.annual_growth_rate / 100 * (stats.base_population : ℚ) :=
      mul_pos (div_pos hrate (by norm_num)) hbase'
    have hlt : (stats.base_population : ℚ) +
        stats.annual_growth_rate / 100 * (stats.base_population : ℚ) *
          (((now - epochTimestamp) / (24 * 60 * 60)) / 365.25)
        < (stats.base_population : ℚ) := by
      nlinarith [mul_neg_of_pos_of_neg hK hd]
    exact truncQ_lt_of_lt hbase hlt

/-- C8 witness: the North-Korea initialisation record (positive growth) one
day before the epoch. -/
theorem C8_before_epoch_witness :
    epochTimestamp - 86400 < epochTimestamp
      ∧ 0 < northKoreaInit.annual_growth_rate
      ∧ 0 < northKoreaInit.base_population
      ∧ estimatePopulation northKoreaInit (epochTimestamp - 86400)
        < northKoreaInit.base_population := by
  refine ⟨by norm_num, by norm_num [northKoreaInit], by norm_num [northKoreaInit], ?_⟩
  exact (C8_before_epoch_total_and_below_base_for_positive_growth northKoreaInit
    (epochTimestamp - 86400) (by norm_num)).2
    (by norm_num [northKoreaInit]) (by norm_num [northKoreaInit])

/-! ### The administrative update (`PopulationManager.update_base_data`) -/

/-- Python `str.lower()` (the country names involved are plain ASCII). -/
def pyLower (s : String) : String := String.mk (s.data.map Char.toLower)

/-- The `new_data` dictionary passed to `update_base_data`: each key either
absent (`none`) or present with a value (`dict.get(key, default)`). -/
structure UpdateDict where
  population : Option ℤ
  year : Option ℤ
  date : Option String
  births : Option ℤ
  deaths : Option ℤ
  growth_rate : Option ℚ
  deriving Repr, DecidableEq

/-- The mutable state of `PopulationManager` touched by `update_base_data`:
the two country records, the derived per-second rates, and the
`*_daily_increment` attributes (which exist only after a first update —
hence `Option`). -/
structure ManagerState where
  south_korea_data : CountryData
  north_korea_data : CountryData
  sk_births_per_sec : ℚ
  sk_deaths_per_sec : ℚ
  nk_births_per_sec : ℚ
  nk_deaths_per_sec : ℚ
  sk_daily_increment : Option ℚ
  nk_daily_increment : Option ℚ
  deriving DecidableEq

/-- The manager state built by `PopulationManager.__init__`. -/
def initManager : ManagerState where
  south_korea_data := southKoreaInit
  north_korea_data := northKoreaInit
  sk_births_per_sec := (southKoreaInit.calculate_birth_death_rates_per_second).1
  sk_deaths_per_sec := (southKoreaInit.calculate_birth_death_rates_per_second).2
  nk_births_per_sec := (northKoreaInit.calculate_birth_death_rates_per_second).1
  nk_deaths_per_sec := (northKoreaInit.calculate_birth_death_rates_per_second).2
  sk_daily_increment := none
  nk_daily_increment := none

/-- `PopulationManager.update_base_data`, lines 340-368: each field is taken
from the dictionary when present, otherwise kept (`dict.get(key, current)`);
then the derived increments and per-second rates of the same country are
recomputed.  An unknown country matches neither branch and changes nothing. -/
def update_base_data (m : ManagerState) (country : String) (new_data : UpdateDict) :
    ManagerState :=
  if pyLower country = "south_korea" then
    let d : CountryData :=
      { m.south_korea_data with
        base_population := new_data.population.getD m.south_korea_data.base_population
        base_year := new_data.year.getD m.south_korea_data.base_year
        base_date := new_data.date.getD m.south_korea_data.base_date
        annual_births := new_data.births.getD m.south_korea_data.annual_births
        annual_deaths := new_data.deaths.getD m.south_korea_data.annual_deaths
        annual_growth_rate := new_data.growth_rate.getD m.south_korea_data.annual_growth_rate }
    { m with
      south_korea_data := d
      sk_daily_increment := some d.calculate_daily_increment
      sk_births_per_sec := d.calculate_birth_death_rates_per_second.1
      sk_deaths_per_sec := d.calculate_birth_death_rates_per_second.2 }
  else if pyLower country = "north_korea" then
    let d : CountryData :=
      { m.north_korea_data with
        base_population := new_data.population.getD m.north_korea_data.base_population
        base_year := new_data.year.getD m.north_korea_data.base_year
        base_date := new_data.date.getD m.north_korea_data.base_date
        annual_births := new_data.births.getD m.north_korea_data.annual_births
        annual_deaths := new_data.deaths.getD m.north_korea_data.annual_deaths
        annual_growth_rate := new_data.growth_rate.getD m.north_korea_data.annual_growth_rate }
    { m with
      north_korea_data := d
      nk_daily_increment := some d.calculate_daily_increment
      nk_births_per_sec := d.calculate_birth_death_rates_per_second.1
      nk_deaths_per_sec := d.calculate_birth_death_rates_per_second.2 }
  else
    m

/-- C7. Every field of the update dictionary that is omitted leaves the
corresponding `CountryData` field unchanged, for both countries; an update
supplying no `births` and no `deaths` (e.g. one carrying only `growth_rate`)
leaves `annual_births` and `annual_deaths` — and hence every subsequent
`births_today` / `deaths_today` output — unchanged; and an update addressed
to one country never modifies the other country's record. -/
theorem C7_omitted_fields_unchanged (m : ManagerState) (country : String)
    (nd : UpdateDict) :
    (nd.births = none →
        (update_base_data m country nd).south_korea_data.annual_births
            = m.south_korea_data.annual_births
          ∧ (update_base_data m country nd).north_korea_data.annual_births
            = m.north_korea_data.annual_births)
      ∧ (nd.deaths = none →
        (update_base_data m country nd).south_korea_data.annual_deaths
            = m.south_korea_data.annual_deaths
          ∧ (update_base_data m country nd).north_korea_data.annual_deaths
            = m.north_korea_data.annual_deaths)
      ∧ (nd.growth_rate = none →
        (update_base_data m country nd).south_korea_data.annual_growth_rate
            = m.south_korea_data.annual_growth_rate
          ∧ (update_base_data m country nd).north_korea_data.annual_growth_rate
            = m.north_korea_data.annual_growth_rate)
      ∧ (nd.date = none →
        (update_base_data m country nd).south_korea_data.base_date
            = m.south_korea_data.base_date
          ∧ (update_base_data m country nd).north_korea_data.base_date
            = m.north_korea_data.base_date)
      ∧ (nd.births = none → nd.deaths = none → ∀ s : ℤ,
        countToday (update_base_data m country nd).south_korea_data.annual_births s
            = countToday m.south_korea_data.annual_births s
          ∧ countToday (update_base_data m country nd).south_korea_data.annual_deaths s
            = countToday m.south_korea_data.annual_deaths s
          ∧ countToday (update_base_data m country nd).north_korea_data.annual_births s
            = countToday m.north_korea_data.annual_births s
          ∧ countToday (update_base_data m country nd).north_korea_data.annual_deaths s
            = countToday m.north_korea_data.annual_deaths s)
      ∧ (pyLower country ≠ "north_korea" →
          (update_base_data m country nd).north_korea_data = m.north_korea_data)
      ∧ (pyLower country ≠ "south_korea" →
          (update_base_data m country nd).south_korea_data = m.south_korea_data) := by
  unfold update_base_data
  by_cases hsk : pyLower country = "south_korea" <;>
    by_cases hnk : pyLower country = "north_korea" <;>
      simp_all

/-- C7 witness: updating South Korea's growth rate only, starting from the
initial manager state, changes neither country's annual birth count, keeps
North Korea's record whole, and preserves the `births_today` output at any
clock reading (here `3600` seconds). -/
theorem C7_omitted_fields_unchanged_witness :
    ({ population := none, year := none, date := none, births := none,
       deaths := none, growth_rate := some (-0.3) : UpdateDict }.births = none)
      ∧ (update_base_data initManager "south_korea"
            { population := none, year := none, date := none, births := none,
              deaths := none, growth_rate := some (-0.3) }).south_korea_data.annual_births
          = initManager.south_korea_data.annual_births
      ∧ (update_base_data initManager "south_korea"
            { population := none, year := none, date := none, births := none,
              deaths := none, growth_rate := some (-0.3) }).north_korea_data
          = initManager.north_korea_data
      ∧ countToday (update_base_data initManager "south_korea"
            { population := none, year := none, date := none, births := none,
              deaths := none, growth_rate := some (-0.3) }).south_korea_data.annual_births 3600
          = countToday initManager.south_korea_data.annual_births 3600 := by
  refine ⟨rfl, ?_, ?_, ?_⟩
  · exact ((C7_omitted_fields_unchanged initManager "south_korea" _).1 rfl).1
  · exact (C7_omitted_fields_unchanged initManager "south_korea" _).2.2.2.2.2.1
      (by decide)
  · exact (((C7_omitted_fields_unchanged initManager "south_korea" _).2.2.2.2.1
      rfl rfl 3600)).1

/-- C10. For every country string whose lowercase form is neither
`"south_korea"` nor `"north_korea"`, `update_base_data` with any dictionary
is a no-op: the whole manager state — both `CountryData` records and all
derived per-second rates — is returned unchanged (and, being total, the
call raises no error). -/
theorem C10_unknown_country_is_noop (m : ManagerState) (country : String)
    (nd : UpdateDict) (hsk : pyLower country ≠ "south_korea")
    (hnk : pyLower country ≠ "north_korea") :
    update_base_data m country nd = m := by
  unfold update_base_data
  rw [if_neg hsk, if_neg hnk]

/-- C10 witness: the country string `"France"`. -/
theorem C10_unknown_country_is_noop_witness :
    pyLower "France" ≠ "south_korea" ∧ pyLower "France" ≠ "north_korea"
      ∧ update_base_data initManager "France"
          { population := some 68000000, year := some 2025, date := none,
            births := some 1, deaths := some 1, growth_rate := some 0.2 }
        = initManager :=
  ⟨by decide, by decide,
    C10_unknown_country_is_noop initManager "France" _ (by decide) (by decide)⟩

/-! ### C6: delivery failures evict exactly the failing viewer

Clients are identified by their handle (modelled as `ℕ`); a tick's send
outcomes are an oracle `fails : ℕ → Bool`. -/

/-- `PopulationManager.remove_client`, lines 270-274: remove the first
occurrence of the client if it is present (`if websocket in ...: remove`). -/
def remove_client (clients : List ℕ) (w : ℕ) : List ℕ :=
  if w ∈ clients then clients.erase w else clients

/-- The delivery loop of `broadcast_update`, lines 319-330: attempt the send
to every member in order — collecting into `disconnected_clients` those whose
send raised — then call `remove_client` on each collected client.  Returns
`(the clients that received the message, the new membership list)`. -/
def broadcast_send (clients : List ℕ) (fails : ℕ → Bool) : List ℕ × List ℕ :=
  let disconnected_clients := clients.filter fails
  (clients.filter (fun c => !fails c), disconnected_clients.foldl remove_client clients)

/-- The per-tick delivery lists over a run of later ticks, one send-outcome
oracle per tick. -/
def runBroadcasts : List ℕ → List (ℕ → Bool) → List (List ℕ)
  | _, [] => []
  | cs, f :: fs => (broadcast_send cs f).1 :: runBroadcasts (broadcast_send cs f).2 fs

theorem remove_client_eq_erase (clients : List ℕ) (w : ℕ) :
    remove_client clients w = clients.erase w := by
  unfold remove_client
  split
  · rfl
  · exact (List.erase_of_not_mem (by assumption)).symm

theorem foldl_remove_client_eq_diff (ds cs : List ℕ) :
    ds.foldl remove_client cs = cs.diff ds := by
  rw [List.diff_eq_foldl]
  induction ds generalizing cs with
  | nil => rfl
  | cons d ds ih => simp only [List.foldl_cons, remove_client_eq_erase, ih]

theorem broadcast_send_membership {clients : List ℕ} (hnd : clients.Nodup)
    (fails : ℕ → Bool) :
    (broadcast_send clients fails).2 = clients.filter (fun c => !fails c) := by
  have hdiff : clients.diff (clients.filter fails)
      = clients.filter (· ∉ clients.filter fails) :=
    List.Nodup.diff_eq_filter hnd
  show (clients.filter fails).foldl remove_client clients = _
  rw [foldl_remove_client_eq_diff, hdiff]
  apply List.filter_congr
  intro c hc
  simp [List.mem_filter, hc]

theorem broadcast_send_snd_subset (clients : List ℕ) (fails : ℕ → Bool) :
    (broadcast_send clients fails).2 ⊆ clients := by
  show (clients.filter fails).foldl remove_client clients ⊆ clients
  rw [foldl_remove_client_eq_diff]
  exact List.diff_subset clients (clients.filter fails)

theorem notMem_runBroadcasts {w : ℕ} :
    ∀ (fs : List (ℕ → Bool)) (cs : List ℕ), w ∉ cs →
      ∀ d ∈ runBroadcasts cs fs, w ∉ d := by
  intro fs
  induction fs with
  | nil => intro cs _ d hd; exact absurd hd (List.not_mem_nil d)
  | cons f fs ih =>
    intro cs hw d hd
    rcases List.mem_cons.mp hd with rfl | hd'
    · intro hwd
      exact hw (List.filter_subset' _ hwd)
    · exact ih _ (fun hmem => hw (broadcast_send_snd_subset cs f hmem)) d hd'

/-- C6. During a broadcast tick over a duplicate-free membership list, the
failing sends remove exactly the failing viewers (so a single failing viewer
is removed and only it), every viewer whose send succeeds still receives the
message (the tick is not aborted, and in the model delivery is a total
function — no error escapes), and a viewer whose send failed is absent from
the delivery list of every subsequent tick. -/
theorem C6_failed_send_evicts_only_failing_viewer (clients : List ℕ)
    (fails : ℕ → Bool) (w : ℕ) (hnd : clients.Nodup) (hw : fails w = true) :
    (broadcast_send clients fails).2 = clients.filter (fun c => !fails c)
      ∧ w ∉ (broadcast_send clients fails).2
      ∧ (∀ c ∈ clients, fails c = false → c ∈ (broadcast_send clients fails).1)
      ∧ ∀ (fs : List (ℕ → Bool)), ∀ d ∈ runBroadcasts (broadcast_send clients fails).2 fs,
          w ∉ d := by
  have hmem : (broadcast_send clients fails).2 = clients.filter (fun c => !fails c) :=
    broadcast_send_membership hnd fails
  have hnotmem : w ∉ (broadcast_send clients fails).2 := by
    rw [hmem]
    intro hcontra
    have := (List.mem_filter.mp hcontra).2
    simp [hw] at this
  refine ⟨hmem, hnotmem, ?_, ?_⟩
  · intro c hc hok
    show c ∈ clients.filter (fun c => !fails c)
    exact List.mem_filter.mpr ⟨hc, by simp [hok]⟩
  · intro fs d hd
    exact notMem_runBroadcasts fs _ hnotmem d hd

/-- C6 witness: three distinct viewers, viewer `2` failing on the tick and
viewer `3` failing on the following tick. -/
theorem C6_failed_send_evicts_only_failing_viewer_witness :
    ([1, 2, 3] : List ℕ).Nodup ∧ (fun c : ℕ => c == 2) 2 = true
      ∧ ((broadcast_send [1, 2, 3] (fun c => c == 2)).2
          = List.filter (fun c => !(c == 2)) [1, 2, 3]
        ∧ 2 ∉ (broadcast_send [1, 2, 3] (fun c => c == 2)).2
        ∧ (∀ c ∈ [1, 2, 3], (fun c : ℕ => c == 2) c = false
            → c ∈ (broadcast_send [1, 2, 3] (fun c => c == 2)).1)
        ∧ ∀ d ∈ runBroadcasts (broadcast_send [1, 2, 3] (fun c => c == 2)).2
            [fun c => c == 3], 2 ∉ d) := by
  refine ⟨by decide, rfl, ?_⟩
  have h := C6_failed_send_evicts_only_failing_viewer [1, 2, 3]
    (fun c => c == 2) 2 (by decide) rfl
  exact ⟨h.1, h.2.1, h.2.2.1, h.2.2.2 [fun c => c == 3]⟩

/-! ### C5: the resync flag over the broadcast loop

`broadcast_update`, lines 281-285: each sent tick computes
`is_resync_time = (current_time - last_resync_time) >= resync_interval`
(`resync_interval = 30.0` from `__init__`) and, when true, sets
`last_resync_time` to the tick's timestamp.  `runTicks r ts` threads the
`last_resync_time` state `r` through a trace of sent-tick timestamps `ts`
and records each outbound `(timestamp, is_resync)` pair. -/

def runTicks : ℚ → List ℚ → List (ℚ × Bool)
  | _, [] => []
  | r, t :: ts =>
    (t, decide (30 ≤ t - r)) :: runTicks (if 30 ≤ t - r then t else r) ts

theorem runTicks_flag_ge_state {ts : List ℚ} :
    ∀ {r t : ℚ}, (t, true) ∈ runTicks r ts → r + 30 ≤ t := by
  induction ts with
  | nil =>
    intro r t h
    simp [runTicks] at h
  | cons t' ts' ih =>
    intro r t h
    rw [runTicks] at h
    rcases List.mem_cons.mp h with h1 | h2
    · obtain ⟨rfl, hb⟩ := Prod.mk.injEq .. ▸ h1
      have h30 : 30 ≤ t - r := of_decide_eq_true hb.symm
      linarith
    · have hih := ih h2
      by_cases h30 : 30 ≤ t' - r
      · rw [if_pos h30] at hih
        linarith
      · rwa [if_neg h30] at hih

theorem runTicks_resync_spacing :
    ∀ (ts : List ℚ) (r : ℚ) (l₁ l₂ : List (ℚ × Bool)) (t₁ t₂ : ℚ),
      runTicks r ts = l₁ ++ (t₁, true) :: l₂ → (t₂, true) ∈ l₂ → t₁ + 30 ≤ t₂ := by
  intro ts
  induction ts with
  | nil =>
    intro r l₁ l₂ t₁ t₂ h _
    rw [runTicks] at h
    exact absurd h (by simp)
  | cons t ts' ih =>
    intro r l₁ l₂ t₁ t₂ h hm
    rw [runTicks] at h
    cases l₁ with
    | nil =>
      simp only [List.nil_append, List.cons.injEq, Prod.mk.injEq] at h
      obtain ⟨⟨ht, hb⟩, hl₂⟩ := h
      subst ht
      have h30 : 30 ≤ t - r := of_decide_eq_true hb
      rw [if_pos h30] at hl₂
      have := runTicks_flag_ge_state (hl₂ ▸ hm)
      linarith
    | cons p l₁' =>
      simp only [List.cons_append, List.cons.injEq] at h
      exact ih _ _ _ _ _ h.2 hm

/-- If consecutive sent ticks are at most one second apart and the trace has
a tick at or before `x` and one at or after `x`, then some tick lands in
`[x, x + 1]`. -/
theorem exists_tick_in_unit_gap :
    ∀ (ts : List ℚ) (x : ℚ),
      List.Chain' (fun u v => u ≤ v ∧ v ≤ u + 1) ts →
      (∃ t ∈ ts, t ≤ x) → (∃ t ∈ ts, x ≤ t) →
      ∃ t ∈ ts, x ≤ t ∧ t ≤ x + 1 := by
  intro ts
  induction ts with
  | nil =>
    intro x _ hlo _
    obtain ⟨t, htm, _⟩ := hlo
    exact absurd htm (List.not_mem_nil t)
  | cons h rest ih =>
    intro x hchain hlo hhi
    by_cases hx : x ≤ h
    · obtain ⟨t₀, ht₀m, ht₀⟩ := hlo
      have hmin : h ≤ t₀ := by
        rcases List.mem_cons.mp ht₀m with rfl | hmem
        · exact le_refl _
        · have hpw := List.chain'_iff_pairwise.mp (hchain.imp fun _ _ hab => hab.1)
          exact (List.pairwise_cons.mp hpw).1 t₀ hmem
      exact ⟨h, List.mem_cons_self .., hx, by linarith⟩
    · push_neg at hx
      obtain ⟨t₁, ht₁m, ht₁⟩ := hhi
      have ht₁rest : t₁ ∈ rest := by
        rcases List.mem_cons.mp ht₁m with rfl | hm
        · exact absurd ht₁ (by linarith)
        · exact hm
      cases rest with
      | nil => exact absurd ht₁rest (List.not_mem_nil t₁)
      | cons h' rest' =>
        by_cases hx' : x ≤ h'
        · have hadj := (List.chain'_cons.mp hchain).1
          exact ⟨h', List.mem_cons_of_mem _ (List.mem_cons_self ..), hx', by
            obtain ⟨h1, h2⟩ := hadj
            linarith⟩
        · push_neg at hx'
          have hchain' := (List.chain'_cons.mp hchain).2
          obtain ⟨t, htm, ht⟩ := ih x hchain'
            ⟨h', List.mem_cons_self .., hx'.le⟩ ⟨t₁, ht₁rest, ht₁⟩
          exact ⟨t, List.mem_cons_of_mem _ htm, ht⟩

/-- If the ticks are listed in time order, the resync state starts at or
before `a` and some tick lies in `[a + 30, a + 60]`, then some tick in the
window `[a, a + 60]` carries a true resync flag. -/
theorem runTicks_resync_in_window :
    ∀ (ts : List ℚ) (r a : ℚ),
      List.Chain' (· ≤ ·) ts → r ≤ a →
      (∃ t ∈ ts, a + 30 ≤ t ∧ t ≤ a + 60) →
      ∃ p ∈ runTicks r ts, p.2 = true ∧ a ≤ p.1 ∧ p.1 ≤ a + 60 := by
  intro ts
  induction ts with
  | nil =>
    intro r a _ _ hw
    obtain ⟨t, htm, _⟩ := hw
    exact absurd htm (List.not_mem_nil t)
  | cons t ts' ih =>
    intro r a hchain hr hw
    obtain ⟨tw, htwm, htw1, htw2⟩ := hw
    by_cases h30 : 30 ≤ t - r
    · by_cases hwin : a ≤ t
      · have hle : t ≤ a + 60 := by
          rcases List.mem_cons.mp htwm with rfl | hm
          · exact htw2
          · have hpw := List.chain'_iff_pairwise.mp hchain
            have := (List.pairwise_cons.mp hpw).1 tw hm
            linarith
        refine ⟨(t, decide (30 ≤ t - r)), ?_, ?_, hwin, hle⟩
        · rw [runTicks]
          exact List.mem_cons_self ..
        · exact decide_eq_true h30
      · push_neg at hwin
        have htwts' : tw ∈ ts' := by
          rcases List.mem_cons.mp htwm with rfl | hm
          · linarith
          · exact hm
        obtain ⟨p, hpm, hp⟩ := ih t a hchain.tail (by linarith) ⟨tw, htwts', htw1, htw2⟩
        refine ⟨p, ?_, hp⟩
        rw [runTicks, if_pos h30]
        exact List.mem_cons_of_mem _ hpm
    · have htwts' : tw ∈ ts' := by
        rcases List.mem_cons.mp htwm with rfl | hm
        · push_neg at h30
          linarith
        · exact hm
      obtain ⟨p, hpm, hp⟩ := ih r a hchain.tail hr ⟨tw, htwts', htw1, htw2⟩
      refine ⟨p, ?_, hp⟩
      rw [runTicks, if_neg h30]
      exact List.mem_cons_of_mem _ hpm

/-- C5. Over any execution of the broadcast loop (any initial
`last_resync_time` `r` and any trace `ts` of sent-tick timestamps): no two
tick messages whose `is_resync` flag is true are sent less than 30 seconds
apart; and in any 60-second observation window `[a, a + 60]` during which the
loop keeps ticking at its 1-second cadence (ticks at most 1 s apart, one at
or before `a`, one at or after `a + 60`) with the resync state initialised at
or before `a`, at least one sent tick message has `is_resync` true. -/
theorem C5_resync_spacing_and_liveness (r : ℚ) (ts : List ℚ) :
    (∀ (l₁ l₂ : List (ℚ × Bool)) (t₁ t₂ : ℚ),
        runTicks r ts = l₁ ++ (t₁, true) :: l₂ → (t₂, true) ∈ l₂ → t₁ + 30 ≤ t₂)
      ∧ ∀ a : ℚ, List.Chain' (fun u v => u ≤ v ∧ v ≤ u + 1) ts → r ≤ a →
          (∃ t ∈ ts, t ≤ a) → (∃ t ∈ ts, a + 60 ≤ t) →
          ∃ p ∈ runTicks r ts, p.2 = true ∧ a ≤ p.1 ∧ p.1 ≤ a + 60 := by
  constructor
  · exact runTicks_resync_spacing ts r
  · intro a hchain hr hlo hhi
    obtain ⟨tw, htwm, htw1, htw2⟩ := exists_tick_in_unit_gap ts (a + 30) hchain
      (by
        obtain ⟨t, htm, ht⟩ := hlo
        exact ⟨t, htm, by linarith⟩)
      (by
        obtain ⟨t, htm, ht⟩ := hhi
        exact ⟨t, htm, by linarith⟩)
    exact runTicks_resync_in_window ts r a (hchain.imp fun _ _ hab => hab.1) hr
      ⟨tw, htwm, htw1, by linarith⟩

/-- C5 witness.  First part: from state `-30`, ticks at `0` and `31` are both
resyncs and the theorem yields their 30-second spacing.  Second part: sixty-two
one-second ticks `0, 1, …, 61` with initial state `0` and observation window
`[1, 61]` contain a flagged tick. -/
theorem C5_resync_spacing_and_liveness_witness :
    ((0 : ℚ) + 30 ≤ 31)
      ∧ ∃ p ∈ runTicks 0 ((List.range 62).map (Nat.cast : ℕ → ℚ)),
          p.2 = true ∧ 1 ≤ p.1 ∧ p.1 ≤ 1 + 60 := by
  constructor
  · exact (C5_resync_spacing_and_liveness (-30) [0, 31]).1 [] [(31, true)] 0 31
      (by norm_num [runTicks]) (by simp)
  · refine (C5_resync_spacing_and_liveness 0 ((List.range 62).map (Nat.cast : ℕ → ℚ))).2
      1 ?_ (by norm_num) ⟨0, ?_, by norm_num⟩ ⟨61, ?_, by norm_num⟩
    · rw [List.chain'_map]
      have h62 : List.Chain' (fun u v : ℕ => u ≤ v ∧ v ≤ u + 1) (List.range 62) := by
        rw [List.chain'_range_succ]
        omega
      exact h62.imp fun a b hab =>
        ⟨by exact_mod_cast hab.1, by exact_mod_cast hab.2⟩
    · exact List.mem_map.mpr ⟨0, by decide, by norm_num⟩
    · exact List.mem_map.mpr ⟨61, by decide, by norm_num⟩

end PulseOfKorea
